import Mathlib

/-!
Verification of the Request Routing & Relay Engine of the new-api-workers
gateway (a Cloudflare-Workers LLM API gateway).

The development shallowly embeds the engine's pure logic:

* channel selection (ChannelService.selectChannel, ChannelService.findEnabledForModel),
* the token model allow-list check (isModelAllowed),
* upstream header construction (buildUpstreamHeaders),
* model-name remapping (applyModelMapping / transformRequestBody),
* usage metering for buffered and streamed responses, and
* the request handlers for POST /v1/chat/completions and POST /v1/embeddings,
  modelled as pure functions over their inputs with explicit effect flags
  (channel lookup performed, upstream called, usage records written).

Platform functions used by the source are modelled as follows:

* JSON.parse is modelled by an executable JSON parser (jsonParse) over the
  full JSON grammar, restricted to numbers with integer value (usage token
  counts and mapping tables only ever carry integers; a document containing
  a non-integral number is rejected by the model) and to plain
  backslash-u escapes (no surrogate pairing).
* Math.random() is modelled as an explicit rational parameter in [0, 1).
* TextDecoder-decoded stream chunks are modelled as the list of decoded
  strings, in arrival order.
* The JS falsiness of the empty string, of 0 and of null/undefined is
  reproduced at each use site; non-numeric truthy values in numeric
  positions (where the source computes x || 0 on a value that the
  TypeScript types declare to be a number) are modelled as 0.
* The SQL query of ChannelService.findEnabled is modelled as a filter on a
  registry list; its ORDER BY clause is not modelled (the claims below only
  concern membership of the result).
-/

/-! ### JavaScript string helpers -/

/-- Whitespace set of the JavaScript regular-expression class backslash-s,
also used by String.prototype.trim (ASCII whitespace, NBSP, the Unicode
space separators, line/paragraph separators and the BOM). -/
def jsWhitespaceChar (c : Char) : Bool :=
  c = ' ' || c = '\t' || c = '\n' || c = '\r' || c = '\x0b' || c = '\x0c' ||
  c.toNat = 0xa0 || c.toNat = 0x1680 ||
  (0x2000 ≤ c.toNat && c.toNat ≤ 0x200a) ||
  c.toNat = 0x2028 || c.toNat = 0x2029 || c.toNat = 0x202f || c.toNat = 0x205f ||
  c.toNat = 0x3000 || c.toNat = 0xfeff

/-- Model of String.prototype.trim: drop JS whitespace from both ends. -/
def jsTrim (s : String) : String :=
  String.mk (((s.toList.dropWhile jsWhitespaceChar).reverse.dropWhile jsWhitespaceChar).reverse)

/-- Split a character list at commas; model of String.prototype.split(',')
(the empty input yields one empty piece, as in JS). -/
def splitCommaAux : List Char → List Char → List (List Char)
  | [], acc => [acc.reverse]
  | c :: rest, acc =>
    if c = ',' then acc.reverse :: splitCommaAux rest [] else splitCommaAux rest (c :: acc)

/-- Model of s.split(',') for a string. -/
def splitComma (s : String) : List String :=
  (splitCommaAux s.toList []).map String.mk

/-! ### A JSON value model and an executable parser (model of JSON.parse) -/

/-- A parsed JSON value. Numbers are restricted to integer values (see the
file comment); object member lists keep source order, with duplicate keys
resolved by getField to the last occurrence, as JSON.parse does. -/
inductive JsonValue where
  | null
  | boolean (b : Bool)
  | num (n : Int)
  | str (s : String)
  | arr (items : List JsonValue)
  | obj (fields : List (String × JsonValue))

/-- JSON document whitespace (RFC 8259: space, tab, line feed, carriage return). -/
def jsonWsChar (c : Char) : Bool :=
  c = ' ' || c = '\t' || c = '\n' || c = '\r'

/-- Drop leading JSON whitespace. -/
def skipJsonWs : List Char → List Char
  | c :: rest => if jsonWsChar c then skipJsonWs rest else c :: rest
  | [] => []

/-- Numeric value of one hex digit, if any. -/
def hexDigitVal (c : Char) : Option Nat :=
  if '0' ≤ c && c ≤ '9' then some (c.toNat - 48)
  else if 'a' ≤ c && c ≤ 'f' then some (c.toNat - 87)
  else if 'A' ≤ c && c ≤ 'F' then some (c.toNat - 55)
  else none

/-- Single-character JSON string escapes. -/
def jsonEscapeChar (c : Char) : Option Char :=
  if c = '"' then some '"'
  else if c = '\\' then some '\\'
  else if c = '/' then some '/'
  else if c = 'b' then some '\x08'
  else if c = 'f' then some '\x0c'
  else if c = 'n' then some '\n'
  else if c = 'r' then some '\r'
  else if c = 't' then some '\t'
  else none

/-- Parse the body of a JSON string after its opening quote, returning the
decoded characters and the input after the closing quote.  Raw control
characters are rejected, as JSON.parse rejects them. -/
def jsonStringRest : List Char → Option (List Char × List Char)
  | [] => none
  | '"' :: rest => some ([], rest)
  | '\\' :: 'u' :: a :: b :: c :: d :: rest =>
    match hexDigitVal a, hexDigitVal b, hexDigitVal c, hexDigitVal d with
    | some va, some vb, some vc, some vd =>
      (jsonStringRest rest).map
        (fun p => (Char.ofNat (((va * 16 + vb) * 16 + vc) * 16 + vd) :: p.1, p.2))
    | _, _, _, _ => none
  | '\\' :: e :: rest =>
    match jsonEscapeChar e with
    | some ch => (jsonStringRest rest).map (fun p => (ch :: p.1, p.2))
    | none => none
  | c :: rest =>
    if c.toNat < 32 then none
    else (jsonStringRest rest).map (fun p => (c :: p.1, p.2))

/-- Decimal value of a digit run. -/
def digitsVal (ds : List Char) : Int :=
  ds.foldl (fun a c => a * 10 + ((c.toNat : Int) - 48)) 0

/-- Parse a JSON number (sign, integer part with the leading-zero rule,
optional fraction and exponent).  The model accepts exactly the documents
whose numeric value is an integer: a fraction or negative exponent must
cancel out, otherwise the parse fails (see the file comment). -/
def jsonNumber (cs : List Char) : Option (Int × List Char) :=
  let signed : Bool × List Char := match cs with
    | '-' :: r => (true, r)
    | _ => (false, cs)
  let intPart : Option (List Char × List Char) := match signed.2 with
    | '0' :: r => some (['0'], r)
    | c :: r => if c.isDigit && c ≠ '0' then some ((c :: r).span Char.isDigit) else none
    | [] => none
  match intPart with
  | none => none
  | some (ids, rest1) =>
    let frac : Option (List Char × List Char) := match rest1 with
      | '.' :: r =>
        let p := r.span Char.isDigit
        if p.1 = [] then none else some p
      | _ => some ([], rest1)
    match frac with
    | none => none
    | some (fds, rest2) =>
      let expo : Option (Int × List Char) := match rest2 with
        | 'e' :: r | 'E' :: r =>
          let sgn : Int × List Char := match r with
            | '+' :: r2 => (1, r2)
            | '-' :: r2 => (-1, r2)
            | _ => (1, r)
          let p := sgn.2.span Char.isDigit
          if p.1 = [] then none else some (sgn.1 * digitsVal p.1, p.2)
        | _ => some (0, rest2)
      match expo with
      | none => none
      | some (e, rest3) =>
        let mant : Int := (if signed.1 then -1 else 1) * digitsVal (ids ++ fds)
        let scale : Int := e - (fds.length : Int)
        if 0 ≤ scale then
          some (mant * (10 : Int) ^ scale.toNat, rest3)
        else
          let d : Int := (10 : Int) ^ (-scale).toNat
          if mant % d = 0 then some (mant / d, rest3) else none

mutual

/-- Parse one JSON value (fuel-driven so totality is immediate). -/
def parseJsonValue : Nat → List Char → Option (JsonValue × List Char)
  | 0, _ => none
  | fuel + 1, cs =>
    match skipJsonWs cs with
    | 'n' :: 'u' :: 'l' :: 'l' :: r => some (.null, r)
    | 't' :: 'r' :: 'u' :: 'e' :: r => some (.boolean true, r)
    | 'f' :: 'a' :: 'l' :: 's' :: 'e' :: r => some (.boolean false, r)
    | '"' :: r => (jsonStringRest r).map (fun p => (.str (String.mk p.1), p.2))
    | '[' :: r =>
      (match skipJsonWs r with
       | ']' :: r2 => some (.arr [], r2)
       | r2 => (parseJsonItems fuel r2).map (fun p => (.arr p.1, p.2)))
    | '{' :: r =>
      (match skipJsonWs r with
       | '}' :: r2 => some (.obj [], r2)
       | r2 => (parseJsonFields fuel r2).map (fun p => (.obj p.1, p.2)))
    | other => (jsonNumber other).map (fun p => (.num p.1, p.2))

/-- Parse the elements of a non-empty JSON array up to its closing bracket. -/
def parseJsonItems : Nat → List Char → Option (List JsonValue × List Char)
  | 0, _ => none
  | fuel + 1, cs =>
    match parseJsonValue fuel cs with
    | none => none
    | some (v, r) =>
      match skipJsonWs r with
      | ',' :: r2 =>
        (parseJsonItems fuel r2).map (fun p => (v :: p.1, p.2))
      | ']' :: r2 => some ([v], r2)
      | _ => none

/-- Parse the members of a non-empty JSON object up to its closing brace. -/
def parseJsonFields : Nat → List Char → Option (List (String × JsonValue) × List Char)
  | 0, _ => none
  | fuel + 1, cs =>
    match skipJsonWs cs with
    | '"' :: r =>
      (match jsonStringRest r with
       | none => none
       | some (ks, r1) =>
         match skipJsonWs r1 with
         | ':' :: r2 =>
           (match parseJsonValue fuel r2 with
            | none => none
            | some (v, r3) =>
              match skipJsonWs r3 with
              | ',' :: r4 =>
                (parseJsonFields fuel r4).map (fun p => ((String.mk ks, v) :: p.1, p.2))
              | '}' :: r4 => some ([(String.mk ks, v)], r4)
              | _ => none)
         | _ => none)
    | _ => none

end

/-- Model of JSON.parse: parse one value and require only whitespace after
it; any failure yields none (the source wraps each call in try/catch). -/
def jsonParse (s : String) : Option JsonValue :=
  match parseJsonValue (2 * s.length + 2) s.toList with
  | some (v, rest) => if skipJsonWs rest = [] then some v else none
  | none => none

/-- Member access on a parsed value (model of v.k): only objects have
members; with duplicate keys the last occurrence wins, as in JSON.parse. -/
def getField (v : JsonValue) (k : String) : Option JsonValue :=
  match v with
  | .obj fields => (fields.reverse.find? (fun f => f.1 == k)).map (fun f => f.2)
  | _ => none

/-- JS truthiness of a JSON value (null, false, 0 and the empty string are
falsy; every array and object is truthy). -/
def jsTruthy : JsonValue → Bool
  | .null => false
  | .boolean b => b
  | .num n => if n = 0 then false else true
  | .str s => if s = "" then false else true
  | .arr _ => true
  | .obj _ => true

/-- Model of x.k || 0 where the source expects a number: the member's
numeric value if it is a number, 0 otherwise (0 || 0 is 0 in JS, so the
falsy case agrees). -/
def numOr0 : Option JsonValue → Int
  | some (.num n) => n
  | _ => 0

/-! ### Data model (src/types.ts) -/

/-! ChannelStatus in src/types.ts. -/

namespace ChannelStatus

def DISABLED : Nat := 0

def ENABLED : Nat := 1

def TESTING : Nat := 2

end ChannelStatus

/-! ChannelType in src/types.ts. -/

namespace ChannelType

def OPENAI : Nat := 1

def AZURE : Nat := 3

def ANTHROPIC : Nat := 14

def GOOGLE : Nat := 24

def CUSTOM : Nat := 99

end ChannelType

/-- An upstream provider record (interface Channel in src/types.ts).  The
weight column is INTEGER in the schema, hence weight is an Int here; the
created_at/updated_at timestamp metadata is omitted as the engine never
reads it. -/
structure Channel where
  id : Nat
  name : String
  type : Nat
  key : String
  base_url : String
  models : String
  model_mapping : String
  status : Nat
  priority : Int
  weight : Int
deriving DecidableEq

/-! ### Token allow-list check (isModelAllowed in src/utils/helpers) -/

/-- Model of parseModelsString: split at commas, trim each entry, drop the
empty ones; an empty or whitespace-only input yields the empty list. -/
def parseModelsString (models : String) : List String :=
  if models = "" then []
  else if jsTrim models = "" then []
  else ((splitComma models).map jsTrim).filter (fun m => decide (0 < m.length))

/-- Model of isModelAllowed: an empty or whitespace-only allow-list permits
every model; otherwise the model must occur in the parsed list, or the
list must contain the wildcard entry. -/
def isModelAllowed (model : String) (allowedModels : String) : Bool :=
  if allowedModels = "" then true
  else if jsTrim allowedModels = "" then true
  else
    let allowed := parseModelsString allowedModels
    allowed.contains model || allowed.contains ("*")

/-! ### Channel registry reads and weighted selection (ChannelService in src/db.ts) -/

/-- Model of ChannelService.findEnabled: the rows of the channel registry
whose status is ENABLED (the SQL ORDER BY is not modelled). -/
def findEnabled (registry : List Channel) : List Channel :=
  registry.filter (fun ch => ch.status == ChannelStatus.ENABLED)

/-- The per-channel test of ChannelService.findEnabledForModel's filter: an
empty or whitespace-only models string admits every model; otherwise the
comma-split, trimmed list must contain the model or the wildcard. -/
def channelServesModel (model : String) (ch : Channel) : Bool :=
  if ch.models = "" then true
  else if jsTrim ch.models = "" then true
  else
    let ms := (splitComma ch.models).map jsTrim
    ms.contains model || ms.contains ("*")

/-- Model of ChannelService.findEnabledForModel: enabled channels whose
model list admits the requested model. -/
def findEnabledForModel (registry : List Channel) (model : String) : List Channel :=
  (findEnabled registry).filter (channelServesModel model)

/-- The for-loop of ChannelService.selectChannel: subtract each weight from
the running remainder and return the first channel that makes it ≤ 0. -/
def selectChannelLoop : List Channel → ℚ → Option Channel
  | [], _ => none
  | ch :: rest, random =>
    let r2 := random - (ch.weight : ℚ)
    if r2 ≤ 0 then some ch else selectChannelLoop rest r2

/-- Total weight of a channel list (the reduce in selectChannel). -/
def channelWeightSum (channels : List Channel) : Int :=
  channels.foldl (fun sum ch => sum + ch.weight) 0

/-- Model of ChannelService.selectChannel.  rand stands for the value of
Math.random(), so the drawn point is rand * totalWeight; the source's
trailing return channels[0] is the fallback arm of the inner match.  The
function is total: the null result on an empty list is the only
unavailability signal, never an exception. -/
def selectChannel (channels : List Channel) (rand : ℚ) : Option Channel :=
  match channels with
  | [] => none
  | c0 :: _ =>
    match selectChannelLoop channels (rand * (channelWeightSum channels : ℚ)) with
    | some ch => some ch
    | none => some c0

/-! ### The streaming usage scan (src/routes/relay.ts, streaming branch) -/

/-- Try to match the regular expression "usage":\s*\{[^}]+\} at the head of
the input; on success return the matched characters.  The greedy
quantifiers need no backtracking here: after the maximal whitespace run
an opening brace must follow, and after the maximal run of non-brace
characters (at least one) a closing brace must follow. -/
def matchUsageAt (cs : List Char) : Option (List Char) :=
  match cs with
  | '"' :: 'u' :: 's' :: 'a' :: 'g' :: 'e' :: '"' :: ':' :: rest =>
    let ws := rest.span jsWhitespaceChar
    (match ws.2 with
     | '{' :: r2 =>
       let inner := r2.span (fun c => !(c == '}'))
       (match inner.1, inner.2 with
        | [], _ => none
        | _, '}' :: _ =>
          some ((['"', 'u', 's', 'a', 'g', 'e', '"', ':'] ++ ws.1) ++
                '{' :: inner.1 ++ ['}'])
        | _, _ => none)
     | _ => none)
  | _ => none

/-- Leftmost match of the usage regular expression (chunk.match returns the
first match in the chunk). -/
def findUsageAux : List Char → Option (List Char)
  | [] => none
  | c :: rest =>
    match matchUsageAt (c :: rest) with
    | some m => some m
    | none => findUsageAux rest

/-- Model of chunk.match(/"usage":\s*\{[^}]+\}/): the matched substring of
the chunk, if any. -/
def findUsageMatch (chunk : String) : Option String :=
  (findUsageAux chunk.toList).map String.mk

/-- One chunk's scan outcome, following the source's try/catch: none when
the regular expression does not match; some none when it matches but
JSON.parse of the braced match (or the member access on its result)
throws, which the source swallows, keeping the previous counters; and
some (some (p, c)) when parsing succeeds, where p and c are the usage
object's prompt_tokens || 0 and completion_tokens || 0. -/
def scanChunk (chunk : String) : Option (Option (Int × Int)) :=
  match findUsageMatch chunk with
  | none => none
  | some m =>
    match jsonParse ("\x7b" ++ m ++ "\x7d") with
    | none => some none
    | some v =>
      match getField v ("usage") with
      | none => some none
      | some u =>
        some (some (numOr0 (getField u ("prompt_tokens")),
                    numOr0 (getField u ("completion_tokens"))))

/-- The loop body's effect on the (promptTokens, completionTokens) state:
a successfully parsed usage match overwrites both counters, anything else
leaves them unchanged. -/
def streamStep (st : Int × Int) (chunk : String) : Int × Int :=
  match scanChunk chunk with
  | some (some u) => u
  | _ => st

/-- Result of the streaming branch: the chunks written to the caller and
the final usage figures. -/
structure StreamOutcome where
  forwarded : List String
  promptTokens : Int
  completionTokens : Int
  billedQuota : Int
deriving DecidableEq

/-- The while-loop of the streaming branch: each chunk is written to the
caller first and then scanned; the counters thread through. -/
def streamRelayAux : List String → (Int × Int) → List String × (Int × Int)
  | [], st => ([], st)
  | c :: rest, st =>
    let next := streamRelayAux rest (streamStep st c)
    (c :: next.1, next.2)

/-- Model of the whole streaming branch: counters start at (0, 0); on
completion the billed quota is promptTokens + completionTokens * 3. -/
def streamRelay (chunks : List String) : StreamOutcome :=
  let r := streamRelayAux chunks (0, 0)
  { forwarded := r.1, promptTokens := r.2.1, completionTokens := r.2.2,
    billedQuota := r.2.1 + r.2.2 * 3 }

/-- The usage figures the scan observes in the stream, in order: one entry
per chunk whose usage match parses. -/
def observedUsages (chunks : List String) : List (Int × Int) :=
  chunks.filterMap (fun c =>
    match scanChunk c with
    | some (some u) => some u
    | _ => none)

/-! ### The buffered usage meter (src/routes/relay.ts, non-streaming branch) -/

/-- Usage figures extracted from a buffered response. -/
structure UsageMeter where
  promptTokens : Int
  completionTokens : Int
  billedQuota : Int
deriving DecidableEq

/-- Model of the buffered branch's metering: parse the body, and only when
it parses and its usage member is truthy read prompt_tokens || 0 and
completion_tokens || 0; the billed quota is p + c * 3.  Parse failure or a
missing usage member leaves the zero-initialised counters untouched. -/
def meterBuffered (responseBody : String) : UsageMeter :=
  let pc : Int × Int :=
    match jsonParse responseBody with
    | none => (0, 0)
    | some parsed =>
      match getField parsed ("usage") with
      | none => (0, 0)
      | some u =>
        if jsTruthy u then
          (numOr0 (getField u ("prompt_tokens")), numOr0 (getField u ("completion_tokens")))
        else (0, 0)
  { promptTokens := pc.1, completionTokens := pc.2, billedQuota := pc.1 + pc.2 * 3 }

/-- Model of the embeddings handler's metering: prompt_tokens || 0 when the
body parses and its usage member is truthy, else 0. -/
def meterEmbeddings (responseBody : String) : Int :=
  match jsonParse responseBody with
  | none => 0
  | some parsed =>
    match getField parsed ("usage") with
    | none => 0
    | some u => if jsTruthy u then numOr0 (getField u ("prompt_tokens")) else 0

/-! ### Upstream header construction (buildUpstreamHeaders in src/routes/relay.ts) -/

/-- The caller headers the adapter may consult.  Only Accept-Encoding is
ever read by the source; the caller's own Authorization is carried here
solely so independence from it can be stated. -/
structure CallerHeaders where
  authorization : Option String := none
  acceptEncoding : Option String := none
deriving DecidableEq

/-- Model of buildUpstreamHeaders: Content-Type always; the provider
credential header per channel type (none for an unrecognised type, as the
switch has no default); then the caller's Accept-Encoding when it is
present and non-empty (Headers.get yields null when absent, and the empty
string is falsy in JS, so an empty value is not forwarded). -/
def buildUpstreamHeaders (channel : Channel) (originalHeaders : CallerHeaders) :
    List (String × String) :=
  let base := [(("Content-Type" : String), ("application/json" : String))]
  let credentialed :=
    if channel.type = ChannelType.OPENAI ∨ channel.type = ChannelType.CUSTOM then
      base ++ [(("Authorization" : String), "Bearer " ++ channel.key)]
    else if channel.type = ChannelType.AZURE then
      base ++ [(("api-key" : String), channel.key)]
    else if channel.type = ChannelType.ANTHROPIC then
      base ++ [(("x-api-key" : String), channel.key),
               (("anthropic-version" : String), ("2023-06-01" : String))]
    else if channel.type = ChannelType.GOOGLE then
      base ++ [(("Authorization" : String), "Bearer " ++ channel.key)]
    else base
  match originalHeaders.acceptEncoding with
  | some enc => if enc = "" then credentialed else credentialed ++ [(("Accept-Encoding" : String), enc)]
  | none => credentialed

/-- Look a header up by name (first binding wins; the constructed lists
never repeat a name). -/
def headerGet (headers : List (String × String)) (name : String) : Option String :=
  (headers.find? (fun h => h.1 == name)).map (fun h => h.2)

/-! ### Request body transformation (applyModelMapping / transformRequestBody) -/

/-- One chat message. -/
structure ChatMessage where
  role : String
  content : String
deriving DecidableEq

/-- The chat-completion request body (interface ChatCompletionRequest in
src/routes/relay.ts); the optional members are None when absent. -/
structure ChatCompletionRequest where
  model : String
  messages : List ChatMessage
  stream : Option Bool := none
  max_tokens : Option Int := none
  temperature : Option Int := none
deriving DecidableEq

/-- Model of applyModelMapping: an absent (empty) or textually-empty table,
a table that fails to parse, a table without an entry for the model, or an
entry that is not a non-empty string (the falsy || fallback; a value
outside the declared Record of strings is modelled as no entry) all leave
the model unchanged; otherwise the entry replaces it. -/
def applyModelMapping (model : String) (mappingJson : String) : String :=
  if mappingJson = "" then model
  else if mappingJson = ("\x7b\x7d") then model
  else
    match jsonParse mappingJson with
    | none => model
    | some mapping =>
      match getField mapping model with
      | some (JsonValue.str s) => if s = "" then model else s
      | _ => model

/-- Model of transformRequestBody: substitute the mapped model, keep every
other member of the body. -/
def transformRequestBody (channel : Channel) (body : ChatCompletionRequest) :
    ChatCompletionRequest :=
  { body with model := applyModelMapping body.model channel.model_mapping }

/-! ### The relay handlers (src/routes/relay.ts) -/

/-- The embeddings request body. -/
structure EmbeddingsRequest where
  model : String
  input : List String
deriving DecidableEq

/-- One row written through LogService.create (the request-id string and
timestamps are omitted). -/
structure UsageRecord where
  userId : Nat
  tokenId : Nat
  channelId : Nat
  model : String
  promptTokens : Int
  completionTokens : Int
  quota : Int
  statusCode : Nat
deriving DecidableEq

/-- The upstream response as the handler sees it: status, the
content-type header value (the empty string when the header is absent),
whether a body is attached, and the body's chunks in arrival order (the
buffered branch reads their concatenation). -/
structure UpstreamResponse where
  status : Nat
  contentType : String
  hasBody : Bool
  bodyChunks : List String
deriving DecidableEq

/-- What a handler run produces, with explicit effect flags: the HTTP
status and error code of the response, the buffered body or the forwarded
stream chunks returned to the caller, whether the channel registry was
consulted, whether the upstream was called, and the usage records
written. -/
structure RelayOutcome where
  status : Nat
  errorCode : Option String
  responseBody : Option String
  forwardedChunks : List String
  channelLookup : Bool
  upstreamCalled : Bool
  usageRecords : List UsageRecord
deriving DecidableEq

/-- An error response outcome: no body relayed, no records written. -/
def errOutcome (status : Nat) (code : String) (lookedUp called : Bool) : RelayOutcome :=
  { status := status, errorCode := some code, responseBody := none, forwardedChunks := [],
    channelLookup := lookedUp, upstreamCalled := called, usageRecords := [] }

/-- Model of contentType.includes('text/event-stream'). -/
def isEventStream (contentType : String) : Bool :=
  decide (List.IsInfix (("text/event-stream" : String)).toList contentType.toList)

/-- Model of the POST /v1/chat/completions handler after authentication.
body? is the parsed request body (none when c.req.json throws); channels
is what the cache-or-registry lookup for the model would deliver; rand is
the Math.random() value consumed by selectChannel; upstream is the fetch
result (none when fetch throws, caught as the 502 branch).  Every branch
records which effects happened. -/
def handleChatCompletions (userId tokenId : Nat) (tokenModels : String)
    (body? : Option ChatCompletionRequest) (channels : List Channel)
    (rand : ℚ) (upstream : Option UpstreamResponse) : RelayOutcome :=
  match body? with
  | none => errOutcome 400 ("invalid_json") false false
  | some body =>
    if body.model = "" then errOutcome 400 ("missing_model") false false
    else if isModelAllowed body.model tokenModels = false then
      errOutcome 403 ("model_not_allowed") false false
    else if channels.length = 0 then errOutcome 503 ("no_channel_available") true false
    else
      match selectChannel channels rand with
      | none => errOutcome 503 ("channel_selection_failed") true false
      | some channel =>
        match upstream with
        | none => errOutcome 502 ("upstream_error") true true
        | some resp =>
          if isEventStream resp.contentType && resp.hasBody then
            let s := streamRelay resp.bodyChunks
            { status := 200, errorCode := none, responseBody := none,
              forwardedChunks := s.forwarded, channelLookup := true, upstreamCalled := true,
              usageRecords := [{ userId := userId, tokenId := tokenId,
                                 channelId := channel.id, model := body.model,
                                 promptTokens := s.promptTokens,
                                 completionTokens := s.completionTokens,
                                 quota := s.billedQuota, statusCode := resp.status }] }
          else
            let responseBody := String.join resp.bodyChunks
            let m := meterBuffered responseBody
            { status := resp.status, errorCode := none, responseBody := some responseBody,
              forwardedChunks := [], channelLookup := true, upstreamCalled := true,
              usageRecords := [{ userId := userId, tokenId := tokenId,
                                 channelId := channel.id, model := body.model,
                                 promptTokens := m.promptTokens,
                                 completionTokens := m.completionTokens,
                                 quota := m.billedQuota, statusCode := resp.status }] }

/-- Model of the POST /v1/embeddings handler after authentication.  This
handler does not wrap c.req.json in try/catch, so a malformed body
escapes to the errorHandler middleware as a 500 with no error code; the
response is always buffered; completion tokens are 0 and the quota equals
the prompt tokens. -/
def handleEmbeddings (userId tokenId : Nat) (tokenModels : String)
    (body? : Option EmbeddingsRequest) (channels : List Channel)
    (rand : ℚ) (upstream : Option UpstreamResponse) : RelayOutcome :=
  match body? with
  | none =>
    { status := 500, errorCode := none, responseBody := none, forwardedChunks := [],
      channelLookup := false, upstreamCalled := false, usageRecords := [] }
  | some body =>
    if body.model = "" then errOutcome 400 ("missing_model") false false
    else if isModelAllowed body.model tokenModels = false then
      errOutcome 403 ("model_not_allowed") false false
    else if channels.length = 0 then errOutcome 503 ("no_channel_available") true false
    else
      match selectChannel channels rand with
      | none => errOutcome 503 ("channel_selection_failed") true false
      | some channel =>
        match upstream with
        | none => errOutcome 502 ("upstream_error") true true
        | some resp =>
          let responseBody := String.join resp.bodyChunks
          let p := meterEmbeddings responseBody
          { status := resp.status, errorCode := none, responseBody := some responseBody,
            forwardedChunks := [], channelLookup := true, upstreamCalled := true,
            usageRecords := [{ userId := userId, tokenId := tokenId,
                               channelId := channel.id, model := body.model,
                               promptTokens := p, completionTokens := 0,
                               quota := p, statusCode := resp.status }] }

/-! ### Concrete sample data for the witness theorems -/

/-- An enabled wildcard channel with weight 0. -/
def sampleZeroWeightChannel : Channel :=
  { id := 1, name := ("zero"), type := 1, key := ("key-zero"), base_url := ("https://up0.example"),
    models := ("*"), model_mapping := ("\x7b\x7d"), status := 1, priority := 0, weight := 0 }

/-- An enabled OpenAI-type wildcard channel with weight 1. -/
def samplePositiveChannel : Channel :=
  { id := 2, name := ("one"), type := 1, key := ("key-one"), base_url := ("https://up1.example"),
    models := ("*"), model_mapping := ("\x7b\x7d"), status := 1, priority := 0, weight := 1 }

/-- An enabled channel whose models string is whitespace-only. -/
def sampleBlankModelsChannel : Channel :=
  { id := 3, name := ("blank"), type := 1, key := ("key-blank"), base_url := ("https://up3.example"),
    models := ("  "), model_mapping := (""), status := 1, priority := 0, weight := 2 }

/-! ### Helper lemmas -/

/-- Prepending to a list shifts the default of its optional last element. -/
theorem getLast?_getD_cons {α : Type} (l : List α) :
    ∀ u d : α, ((u :: l).getLast?).getD d = (l.getLast?).getD u := by
  induction l with
  | nil => intro u d; rfl
  | cons v t ih =>
    intro u d
    rw [List.getLast?_cons_cons]
    calc ((v :: t).getLast?).getD d = (t.getLast?).getD v := ih v d
      _ = ((v :: t).getLast?).getD u := (ih v u).symm

/-- The streaming loop writes exactly the received chunks, in order. -/
theorem streamRelayAux_forwarded (chunks : List String) :
    ∀ st, (streamRelayAux chunks st).1 = chunks := by
  induction chunks with
  | nil => intro st; rfl
  | cons c rest ih => intro st; simp [streamRelayAux, ih]

/-- The streaming loop's final counters are the last observed usage figures,
defaulting to the initial state. -/
theorem streamRelayAux_counters (chunks : List String) :
    ∀ st, (streamRelayAux chunks st).2 = ((observedUsages chunks).getLast?).getD st := by
  induction chunks with
  | nil => intro st; rfl
  | cons c rest ih =>
    intro st
    show (streamRelayAux rest (streamStep st c)).2 = _
    rw [ih]
    unfold observedUsages streamStep
    rw [List.filterMap_cons]
    cases h : scanChunk c with
    | none => simp [h]
    | some o =>
      cases o with
      | none => simp [h]
      | some u => simp only [h]; rw [getLast?_getD_cons]

/-- A result of the selection loop is an element of its input list. -/
theorem selectChannelLoop_mem :
    ∀ (l : List Channel) (r : ℚ) (ch : Channel), selectChannelLoop l r = some ch → ch ∈ l := by
  intro l
  induction l with
  | nil => intro r ch h; simp [selectChannelLoop] at h
  | cons c t ih =>
    intro r ch h
    by_cases hc : r - (c.weight : ℚ) ≤ 0
    · simp [selectChannelLoop, hc] at h
      exact h ▸ List.mem_cons_self c t
    · simp [selectChannelLoop, hc] at h
      exact List.mem_cons_of_mem c (ih _ ch h)

/-- On a non-empty list, selection yields an element of the list. -/
theorem selectChannel_mem_of_ne_nil (channels : List Channel) (rand : ℚ)
    (h : channels ≠ []) : ∃ ch ∈ channels, selectChannel channels rand = some ch := by
  match channels with
  | [] => exact absurd rfl h
  | c0 :: rest =>
    unfold selectChannel
    cases hl : selectChannelLoop (c0 :: rest) (rand * (channelWeightSum (c0 :: rest) : ℚ)) with
    | none => exact ⟨c0, List.mem_cons_self c0 rest, rfl⟩
    | some ch => exact ⟨ch, selectChannelLoop_mem _ _ ch hl, rfl⟩

/-- Folding the weights of all-zero-weight channels adds nothing. -/
theorem channelWeightSum_zero :
    ∀ (l : List Channel), (∀ ch ∈ l, ch.weight = 0) →
      ∀ a : Int, l.foldl (fun sum ch => sum + ch.weight) a = a := by
  intro l
  induction l with
  | nil => intro _ a; rfl
  | cons c t ih =>
    intro h a
    have hc : c.weight = 0 := h c (List.mem_cons_self c t)
    show t.foldl (fun sum ch => sum + ch.weight) (a + c.weight) = a
    rw [hc, add_zero]
    exact ih (fun ch hch => h ch (List.mem_cons_of_mem c hch)) a

/-! ### Claim theorems -/

/-- C3: selectChannel signals unavailability exactly on the empty input:
the empty channel list yields none (the typed NoChannelAvailable result;
the Lean function is total, so no exception is possible), every non-empty
list yields some element of the list, and a non-empty list whose weights
are all zero deterministically yields its first channel, whatever
Math.random() returns. -/
theorem selectChannel_unavailable_iff_empty :
    (∀ rand : ℚ, selectChannel [] rand = none)
    ∧ (∀ (channels : List Channel) (rand : ℚ), channels ≠ [] →
        ∃ ch ∈ channels, selectChannel channels rand = some ch)
    ∧ (∀ (channels : List Channel) (rand : ℚ), channels ≠ [] →
        (∀ ch ∈ channels, ch.weight = 0) →
        selectChannel channels rand = channels.head?) := by
  refine ⟨fun rand => rfl, selectChannel_mem_of_ne_nil, ?_⟩
  intro channels rand hne hzero
  match channels with
  | [] => exact absurd rfl hne
  | c0 :: rest =>
    have hsum : channelWeightSum (c0 :: rest) = 0 := channelWeightSum_zero _ hzero 0
    have hc0 : c0.weight = 0 := hzero c0 (List.mem_cons_self c0 rest)
    unfold selectChannel
    have hloop : selectChannelLoop (c0 :: rest)
        (rand * (channelWeightSum (c0 :: rest) : ℚ)) = some c0 := by
      rw [hsum]
      show selectChannelLoop (c0 :: rest) (rand * ((0 : Int) : ℚ)) = some c0
      unfold selectChannelLoop
      rw [hc0]
      norm_num
    rw [hloop]
    rfl

/-- C3 witness: the theorem at the empty list, at a concrete singleton
list, and at a concrete all-zero-weight list. -/
theorem selectChannel_unavailable_iff_empty_witness :
    selectChannel [] (1 / 2) = none
    ∧ (∃ ch ∈ [samplePositiveChannel], selectChannel [samplePositiveChannel] (1 / 2) = some ch)
    ∧ selectChannel [sampleZeroWeightChannel] (1 / 2) = [sampleZeroWeightChannel].head? :=
  ⟨selectChannel_unavailable_iff_empty.1 (1 / 2),
   selectChannel_unavailable_iff_empty.2.1 [samplePositiveChannel] (1 / 2) (by simp),
   selectChannel_unavailable_iff_empty.2.2 [sampleZeroWeightChannel] (1 / 2) (by simp)
     (by intro ch hch
         rw [List.mem_singleton] at hch
         rw [hch]
         rfl)⟩

/-- C1: the claim fails at the boundary of the drawn interval.  With the
channel list [zero-weight, weight 1] (total weight 1, so the draw
rand * totalWeight = 0 lies in [0, totalWeight)), selectChannel returns
the zero-weight first channel when Math.random() returns 0: the loop's
remainder 0 - 0 ≤ 0 already stops at the first channel.  The spec's
invariant that a zero-weight channel is never selected while a
positive-weight alternative exists is therefore violated on this input. -/
theorem selectChannel_zero_draw_selects_zero_weight :
    selectChannel [sampleZeroWeightChannel, samplePositiveChannel] 0
      = some sampleZeroWeightChannel
    ∧ sampleZeroWeightChannel.weight = 0
    ∧ 0 < samplePositiveChannel.weight
    ∧ channelWeightSum [sampleZeroWeightChannel, samplePositiveChannel] = 1 := by
  refine ⟨?_, rfl, by decide, by decide⟩
  show (match selectChannelLoop [sampleZeroWeightChannel, samplePositiveChannel]
      ((0 : ℚ) * (channelWeightSum [sampleZeroWeightChannel, samplePositiveChannel] : ℚ)) with
    | some ch => some ch
    | none => some sampleZeroWeightChannel) = some sampleZeroWeightChannel
  have h : selectChannelLoop [sampleZeroWeightChannel, samplePositiveChannel]
      ((0 : ℚ) * (channelWeightSum [sampleZeroWeightChannel, samplePositiveChannel] : ℚ))
      = some sampleZeroWeightChannel := by
    unfold selectChannelLoop
    norm_num [sampleZeroWeightChannel]
  rw [h]

/-- C2: for every finite chunk sequence, the streaming branch forwards
every received chunk unmodified and in order; its final counters equal the
figures of the last usage object the per-chunk scan observes in the stream
(the pair defaults to (0, 0) when no chunk yields one); the billed quota
is promptTokens + completionTokens * 3; and when no chunk contains a usage
match at all, both counters and the billed quota are 0. -/
theorem streamRelay_meter_and_forwarding (chunks : List String) :
    (streamRelay chunks).forwarded = chunks
    ∧ ((streamRelay chunks).promptTokens, (streamRelay chunks).completionTokens)
        = ((observedUsages chunks).getLast?).getD (0, 0)
    ∧ (streamRelay chunks).billedQuota
        = (streamRelay chunks).promptTokens + (streamRelay chunks).completionTokens * 3
    ∧ ((∀ c ∈ chunks, findUsageMatch c = none) →
        (streamRelay chunks).promptTokens = 0 ∧ (streamRelay chunks).completionTokens = 0
        ∧ (streamRelay chunks).billedQuota = 0) := by
  have hfwd : (streamRelay chunks).forwarded = chunks := streamRelayAux_forwarded chunks (0, 0)
  have hpair : ((streamRelay chunks).promptTokens, (streamRelay chunks).completionTokens)
      = ((observedUsages chunks).getLast?).getD (0, 0) := streamRelayAux_counters chunks (0, 0)
  refine ⟨hfwd, hpair, rfl, ?_⟩
  intro hnone
  have hobs : observedUsages chunks = [] := by
    apply List.filterMap_eq_nil_iff.mpr
    intro c hc
    have : scanChunk c = none := by
      unfold scanChunk
      rw [hnone c hc]
    rw [this]
  rw [hobs] at hpair
  have hp : (streamRelay chunks).promptTokens = 0 := by
    have := congrArg Prod.fst hpair
    simpa using this
  have hc : (streamRelay chunks).completionTokens = 0 := by
    have := congrArg Prod.snd hpair
    simpa using this
  refine ⟨hp, hc, ?_⟩
  show (streamRelay chunks).billedQuota = 0
  have : (streamRelay chunks).billedQuota
      = (streamRelay chunks).promptTokens + (streamRelay chunks).completionTokens * 3 := rfl
  rw [this, hp, hc]
  norm_num

/-- C2 witness: a usage-free stream is forwarded verbatim with zero billed
quota, and a stream with one usage chunk yields that chunk's figures. -/
theorem streamRelay_meter_and_forwarding_witness :
    (streamRelay [("data: alpha"), ("data: [DONE]")]).forwarded
      = [("data: alpha"), ("data: [DONE]")]
    ∧ (streamRelay [("data: alpha"), ("data: [DONE]")]).billedQuota = 0
    ∧ ((streamRelay [("data: \x7b\"usage\": \x7b\"prompt_tokens\": 7, \"completion_tokens\": 2\x7d\x7d")]).promptTokens,
       (streamRelay [("data: \x7b\"usage\": \x7b\"prompt_tokens\": 7, \"completion_tokens\": 2\x7d\x7d")]).completionTokens)
      = (7, 2) :=
  ⟨(streamRelay_meter_and_forwarding _).1,
   ((streamRelay_meter_and_forwarding _).2.2.2 (by decide)).2.2,
   Eq.trans (streamRelay_meter_and_forwarding _).2.1 (by decide)⟩

/-- C4: whenever a buffered chat-completion body parses as JSON whose
(truthy) usage member carries numeric prompt_tokens p and
completion_tokens c, the billed quota is p + c * 3; in particular the
spec's example body bills 10 + 5 * 3 = 25. -/
theorem meterBuffered_quota_formula :
    (∀ (body : String) (v u : JsonValue) (p c : Int),
        jsonParse body = some v →
        getField v ("usage") = some u →
        jsTruthy u = true →
        getField u ("prompt_tokens") = some (JsonValue.num p) →
        getField u ("completion_tokens") = some (JsonValue.num c) →
        (meterBuffered body).billedQuota = p + c * 3)
    ∧ (meterBuffered
        ("\x7b\"usage\":\x7b\"prompt_tokens\":10,\"completion_tokens\":5\x7d\x7d")).billedQuota
      = 25 := by
  constructor
  · intro body v u p c hparse husage htruthy hpt hct
    simp only [meterBuffered, hparse, husage, htruthy, if_true, hpt, hct, numOr0]
  · decide

/-- C4 witness: the universal part of the theorem applied to the spec's
example body, whose parse and member reads are discharged by rfl. -/
theorem meterBuffered_quota_formula_witness :
    (meterBuffered
      ("\x7b\"usage\":\x7b\"prompt_tokens\":10,\"completion_tokens\":5\x7d\x7d")).billedQuota
      = 10 + 5 * 3 :=
  meterBuffered_quota_formula.1
    ("\x7b\"usage\":\x7b\"prompt_tokens\":10,\"completion_tokens\":5\x7d\x7d")
    (JsonValue.obj [(("usage"),
      JsonValue.obj [(("prompt_tokens"), JsonValue.num 10),
                     (("completion_tokens"), JsonValue.num 5)])])
    (JsonValue.obj [(("prompt_tokens"), JsonValue.num 10),
                    (("completion_tokens"), JsonValue.num 5)])
    10 5 rfl rfl rfl rfl rfl

/-- C6: a buffered upstream response whose body is not valid JSON or has
no usage member meters as (0, 0) with billed quota 0, and the request is
not failed: the handler still returns the upstream body verbatim under
the upstream's own status, with no error code, and every usage record it
writes bills zero. -/
theorem handleChat_buffered_degrade :
    ∀ (userId tokenId : Nat) (tokenModels : String) (body : ChatCompletionRequest)
      (channels : List Channel) (rand : ℚ) (resp : UpstreamResponse),
      body.model ≠ "" →
      isModelAllowed body.model tokenModels = true →
      channels ≠ [] →
      (isEventStream resp.contentType && resp.hasBody) = false →
      (jsonParse (String.join resp.bodyChunks) = none
        ∨ ∃ v, jsonParse (String.join resp.bodyChunks) = some v
            ∧ getField v ("usage") = none) →
      meterBuffered (String.join resp.bodyChunks)
          = { promptTokens := 0, completionTokens := 0, billedQuota := 0 }
      ∧ (handleChatCompletions userId tokenId tokenModels (some body) channels rand
            (some resp)).status = resp.status
      ∧ (handleChatCompletions userId tokenId tokenModels (some body) channels rand
            (some resp)).responseBody = some (String.join resp.bodyChunks)
      ∧ (handleChatCompletions userId tokenId tokenModels (some body) channels rand
            (some resp)).errorCode = none
      ∧ ∀ rec ∈ (handleChatCompletions userId tokenId tokenModels (some body) channels rand
            (some resp)).usageRecords,
          rec.promptTokens = 0 ∧ rec.completionTokens = 0 ∧ rec.quota = 0 := by
  intro userId tokenId tokenModels body channels rand resp
  intro hmodel hallowed hne hstream husage
  have hmeter : meterBuffered (String.join resp.bodyChunks)
      = { promptTokens := 0, completionTokens := 0, billedQuota := 0 } := by
    rcases husage with hnone | ⟨v, hv, hget⟩
    · simp [meterBuffered, hnone]
    · simp [meterBuffered, hv, hget]
  obtain ⟨ch, hmem, hsel⟩ := selectChannel_mem_of_ne_nil channels rand hne
  have hlen : ¬(channels.length = 0) := by simpa [List.length_eq_zero] using hne
  have hhandler : handleChatCompletions userId tokenId tokenModels (some body) channels rand
      (some resp)
      = { status := resp.status, errorCode := none,
          responseBody := some (String.join resp.bodyChunks), forwardedChunks := [],
          channelLookup := true, upstreamCalled := true,
          usageRecords := [{ userId := userId, tokenId := tokenId, channelId := ch.id,
                             model := body.model,
                             promptTokens :=
                               (meterBuffered (String.join resp.bodyChunks)).promptTokens,
                             completionTokens :=
                               (meterBuffered (String.join resp.bodyChunks)).completionTokens,
                             quota := (meterBuffered (String.join resp.bodyChunks)).billedQuota,
                             statusCode := resp.status }] } := by
    simp [handleChatCompletions, hmodel, hallowed, hlen, hsel, hstream]
  refine ⟨hmeter, ?_, ?_, ?_, ?_⟩
  · rw [hhandler]
  · rw [hhandler]
  · rw [hhandler]
  · intro rec hrec
    rw [hhandler] at hrec
    simp only [List.mem_singleton] at hrec
    rw [hrec]
    simp [hmeter]

/-- C6 witness: the theorem at a concrete non-JSON upstream body behind a
singleton channel list. -/
theorem handleChat_buffered_degrade_witness :
    meterBuffered (String.join [("upstream failure body")])
        = { promptTokens := 0, completionTokens := 0, billedQuota := 0 }
    ∧ (handleChatCompletions 7 9 ("") (some { model := ("gpt-4"), messages := [] })
          [samplePositiveChannel] 0
          (some { status := 400, contentType := ("application/json"), hasBody := true,
                  bodyChunks := [("upstream failure body")] })).status = 400
    ∧ (handleChatCompletions 7 9 ("") (some { model := ("gpt-4"), messages := [] })
          [samplePositiveChannel] 0
          (some { status := 400, contentType := ("application/json"), hasBody := true,
                  bodyChunks := [("upstream failure body")] })).responseBody
        = some (String.join [("upstream failure body")]) := by
  have h := handleChat_buffered_degrade 7 9 ("") { model := ("gpt-4"), messages := [] }
    [samplePositiveChannel] 0
    { status := 400, contentType := ("application/json"), hasBody := true,
      bodyChunks := [("upstream failure body")] }
    (by decide) (by decide) (by simp) (by decide) (Or.inl rfl)
  exact ⟨h.1, h.2.1, h.2.2.1⟩

/-- With a non-empty allow-list that contains neither the model nor the
wildcard, isModelAllowed answers false. -/
theorem isModelAllowed_eq_false (model s : String) (hne : jsTrim s ≠ "")
    (hm : model ∉ parseModelsString s) (hw : ("*") ∉ parseModelsString s) :
    isModelAllowed model s = false := by
  have hs : s ≠ "" := by
    intro h
    exact hne (by rw [h]; rfl)
  unfold isModelAllowed
  rw [if_neg hs, if_neg hne]
  simp only [Bool.or_eq_false_iff]
  constructor
  · exact (Bool.not_eq_true _).mp (fun hc => hm (by simpa using hc))
  · exact (Bool.not_eq_true _).mp (fun hc => hw (by simpa using hc))

/-- C5: a chat-completion or embeddings request whose model is missing
from the token's non-empty allow-list (which also has no wildcard entry)
is rejected with status 403 and error code model_not_allowed, before any
channel lookup, with no upstream call and no usage record, whatever the
channel registry, random draw and upstream would have produced. -/
theorem relay_model_not_allowed_rejected_before_lookup :
    ∀ (userId tokenId : Nat) (tokenModels : String) (cbody : ChatCompletionRequest)
      (ebody : EmbeddingsRequest) (channels : List Channel) (rand : ℚ)
      (upstream : Option UpstreamResponse),
      jsTrim tokenModels ≠ "" →
      ("*") ∉ parseModelsString tokenModels →
      cbody.model ≠ "" →
      cbody.model ∉ parseModelsString tokenModels →
      ebody.model ≠ "" →
      ebody.model ∉ parseModelsString tokenModels →
      handleChatCompletions userId tokenId tokenModels (some cbody) channels rand upstream
        = { status := 403, errorCode := some ("model_not_allowed"), responseBody := none,
            forwardedChunks := [], channelLookup := false, upstreamCalled := false,
            usageRecords := [] }
      ∧ handleEmbeddings userId tokenId tokenModels (some ebody) channels rand upstream
        = { status := 403, errorCode := some ("model_not_allowed"), responseBody := none,
            forwardedChunks := [], channelLookup := false, upstreamCalled := false,
            usageRecords := [] } := by
  intro userId tokenId tokenModels cbody ebody channels rand upstream
  intro htm hw hcm hcmem hem hemem
  have hcf : isModelAllowed cbody.model tokenModels = false :=
    isModelAllowed_eq_false cbody.model tokenModels htm hcmem hw
  have hef : isModelAllowed ebody.model tokenModels = false :=
    isModelAllowed_eq_false ebody.model tokenModels htm hemem hw
  constructor
  · simp [handleChatCompletions, hcm, hcf, errOutcome]
  · simp [handleEmbeddings, hem, hef, errOutcome]

/-- C5 witness: a request for claude-3 under the allow-list
gpt-4,gpt-3.5 is rejected by both handlers with 403/model_not_allowed
and no effects. -/
theorem relay_model_not_allowed_rejected_before_lookup_witness :
    handleChatCompletions 1 2 ("gpt-4,gpt-3.5")
        (some { model := ("claude-3"), messages := [] }) [samplePositiveChannel] 0 none
      = { status := 403, errorCode := some ("model_not_allowed"), responseBody := none,
          forwardedChunks := [], channelLookup := false, upstreamCalled := false,
          usageRecords := [] }
    ∧ handleEmbeddings 1 2 ("gpt-4,gpt-3.5")
        (some { model := ("claude-3"), input := [] }) [samplePositiveChannel] 0 none
      = { status := 403, errorCode := some ("model_not_allowed"), responseBody := none,
          forwardedChunks := [], channelLookup := false, upstreamCalled := false,
          usageRecords := [] } :=
  relay_model_not_allowed_rejected_before_lookup 1 2 ("gpt-4,gpt-3.5")
    { model := ("claude-3"), messages := [] } { model := ("claude-3"), input := [] }
    [samplePositiveChannel] 0 none
    (by decide) (by decide) (by decide) (by decide) (by decide) (by decide)

/-- C7: when the channel's model-mapping table is absent (empty), the
empty table, malformed JSON, or lacks an entry for the body's model, the
transformed body keeps its model; and in every case the transformation
changes no member of the body other than model. -/
theorem transformRequestBody_mapping :
    (∀ (channel : Channel) (body : ChatCompletionRequest),
        (channel.model_mapping = "" ∨ channel.model_mapping = ("\x7b\x7d")
          ∨ jsonParse channel.model_mapping = none
          ∨ ∃ v, jsonParse channel.model_mapping = some v ∧ getField v body.model = none) →
        (transformRequestBody channel body).model = body.model)
    ∧ ∀ (channel : Channel) (body : ChatCompletionRequest),
        (transformRequestBody channel body).messages = body.messages
        ∧ (transformRequestBody channel body).stream = body.stream
        ∧ (transformRequestBody channel body).max_tokens = body.max_tokens
        ∧ (transformRequestBody channel body).temperature = body.temperature := by
  constructor
  · intro channel body h
    show applyModelMapping body.model channel.model_mapping = body.model
    by_cases hA : channel.model_mapping = ""
    · simp [applyModelMapping, hA]
    · by_cases hB : channel.model_mapping = ("\x7b\x7d")
      · simp [applyModelMapping, hA, hB]
      · rcases h with h1 | h2 | h3 | ⟨v, hv, hget⟩
        · exact absurd h1 hA
        · exact absurd h2 hB
        · simp [applyModelMapping, hA, hB, h3]
        · simp [applyModelMapping, hA, hB, hv, hget]
  · intro channel body
    exact ⟨rfl, rfl, rfl, rfl⟩

/-- C7 witness: the theorem at a channel whose mapping table is the empty
table, on a concrete body. -/
theorem transformRequestBody_mapping_witness :
    (transformRequestBody samplePositiveChannel
        { model := ("gpt-4"), messages := [] }).model = ("gpt-4")
    ∧ (transformRequestBody samplePositiveChannel
        { model := ("gpt-4"), messages := [] }).messages = [] :=
  ⟨transformRequestBody_mapping.1 samplePositiveChannel
      { model := ("gpt-4"), messages := [] } (Or.inr (Or.inl rfl)),
   (transformRequestBody_mapping.2 samplePositiveChannel
      { model := ("gpt-4"), messages := [] }).1⟩

/-- C9: an empty or whitespace-only token allow-list restricts nothing:
isModelAllowed answers true for every model. -/
theorem isModelAllowed_empty_allows_all :
    ∀ (model allowedModels : String), jsTrim allowedModels = "" →
      isModelAllowed model allowedModels = true := by
  intro model s h
  unfold isModelAllowed
  by_cases hs : s = ""
  · rw [if_pos hs]
  · rw [if_neg hs, if_pos h]

/-- C9 witness: the theorem at a whitespace-only allow-list. -/
theorem isModelAllowed_empty_allows_all_witness :
    isModelAllowed ("claude-3") ("   ") = true :=
  isModelAllowed_empty_allows_all ("claude-3") ("   ") (by decide)

/-- C10: an enabled channel whose models string is empty or
whitespace-only is eligible for every model: it is kept by
findEnabledForModel whatever model is requested. -/
theorem findEnabledForModel_blank_models_included :
    ∀ (registry : List Channel) (model : String) (ch : Channel),
      ch ∈ registry → ch.status = ChannelStatus.ENABLED → jsTrim ch.models = "" →
      ch ∈ findEnabledForModel registry model := by
  intro registry model ch hmem hstatus hblank
  unfold findEnabledForModel findEnabled
  apply List.mem_filter.mpr
  refine ⟨List.mem_filter.mpr ⟨hmem, ?_⟩, ?_⟩
  · simp [hstatus]
  · show channelServesModel model ch = true
    unfold channelServesModel
    by_cases hm : ch.models = ""
    · rw [if_pos hm]
    · rw [if_neg hm, if_pos hblank]

/-- C10 witness: the theorem at a whitespace-models channel and an
arbitrary concrete model. -/
theorem findEnabledForModel_blank_models_included_witness :
    sampleBlankModelsChannel ∈ findEnabledForModel [sampleBlankModelsChannel] ("claude-3") :=
  findEnabledForModel_blank_models_included [sampleBlankModelsChannel] ("claude-3")
    sampleBlankModelsChannel (by simp) rfl (by decide)

/-- C8: the upstream headers always carry Content-Type application/json;
the channel credential is sent as a Bearer Authorization for the
OpenAI/custom/Google types, as api-key for Azure, and as x-api-key plus
anthropic-version 2023-06-01 for Anthropic; the caller's Accept-Encoding
is forwarded exactly when the caller supplied a non-empty one (an empty
header value is falsy in JS and counts as not supplied); and the result
never depends on the caller's own Authorization value. -/
theorem buildUpstreamHeaders_contract :
    ∀ (channel : Channel) (callerHeaders : CallerHeaders),
      headerGet (buildUpstreamHeaders channel callerHeaders) ("Content-Type")
        = some ("application/json")
      ∧ ((channel.type = ChannelType.OPENAI ∨ channel.type = ChannelType.CUSTOM
            ∨ channel.type = ChannelType.GOOGLE) →
          headerGet (buildUpstreamHeaders channel callerHeaders) ("Authorization")
            = some ("Bearer " ++ channel.key))
      ∧ (channel.type = ChannelType.AZURE →
          headerGet (buildUpstreamHeaders channel callerHeaders) ("api-key")
            = some channel.key)
      ∧ (channel.type = ChannelType.ANTHROPIC →
          headerGet (buildUpstreamHeaders channel callerHeaders) ("x-api-key")
            = some channel.key
          ∧ headerGet (buildUpstreamHeaders channel callerHeaders) ("anthropic-version")
            = some ("2023-06-01"))
      ∧ headerGet (buildUpstreamHeaders channel callerHeaders) ("Accept-Encoding")
          = (match callerHeaders.acceptEncoding with
             | some enc => if enc = "" then none else some enc
             | none => none)
      ∧ ∀ auth2 : Option String,
          buildUpstreamHeaders channel { callerHeaders with authorization := auth2 }
            = buildUpstreamHeaders channel callerHeaders := by
  intro channel hd
  have hsplit : hd.acceptEncoding = none
      ∨ (∃ enc, hd.acceptEncoding = some enc ∧ enc = "")
      ∨ (∃ enc, hd.acceptEncoding = some enc ∧ enc ≠ "") := by
    cases hae : hd.acceptEncoding with
    | none => exact Or.inl rfl
    | some enc =>
      by_cases he : enc = ""
      · exact Or.inr (Or.inl ⟨enc, rfl, he⟩)
      · exact Or.inr (Or.inr ⟨enc, rfl, he⟩)
  refine ⟨?_, ?_, ?_, ?_, ?_, ?_⟩
  · rcases hsplit with hae | ⟨enc, hae, he⟩ | ⟨enc, hae, he⟩ <;>
      simp only [buildUpstreamHeaders, hae] <;>
      split_ifs <;>
      simp_all [headerGet]
  · intro hty
    rcases hty with h1 | h1 | h1 <;>
      rcases hsplit with hae | ⟨enc, hae, he⟩ | ⟨enc, hae, he⟩ <;>
      simp_all [buildUpstreamHeaders, headerGet, ChannelType.OPENAI, ChannelType.AZURE,
        ChannelType.ANTHROPIC, ChannelType.GOOGLE, ChannelType.CUSTOM]
  · intro hty
    rcases hsplit with hae | ⟨enc, hae, he⟩ | ⟨enc, hae, he⟩ <;>
      simp_all [buildUpstreamHeaders, headerGet, ChannelType.OPENAI, ChannelType.AZURE,
        ChannelType.ANTHROPIC, ChannelType.GOOGLE, ChannelType.CUSTOM]
  · intro hty
    constructor <;>
      rcases hsplit with hae | ⟨enc, hae, he⟩ | ⟨enc, hae, he⟩ <;>
      simp_all [buildUpstreamHeaders, headerGet, ChannelType.OPENAI, ChannelType.AZURE,
        ChannelType.ANTHROPIC, ChannelType.GOOGLE, ChannelType.CUSTOM]
  · rcases hsplit with hae | ⟨enc, hae, he⟩ | ⟨enc, hae, he⟩ <;>
      simp only [buildUpstreamHeaders, hae] <;>
      split_ifs <;>
      simp_all [headerGet]
  · intro auth2
    simp [buildUpstreamHeaders]

/-- C8 witness: the theorem at an OpenAI-type channel with a caller that
supplies gzip Accept-Encoding and its own Authorization header. -/
theorem buildUpstreamHeaders_contract_witness :
    headerGet (buildUpstreamHeaders samplePositiveChannel
        { authorization := some ("Bearer caller-secret"), acceptEncoding := some ("gzip") })
        ("Content-Type") = some ("application/json")
    ∧ headerGet (buildUpstreamHeaders samplePositiveChannel
        { authorization := some ("Bearer caller-secret"), acceptEncoding := some ("gzip") })
        ("Authorization") = some ("Bearer " ++ samplePositiveChannel.key)
    ∧ headerGet (buildUpstreamHeaders samplePositiveChannel
        { authorization := some ("Bearer caller-secret"), acceptEncoding := some ("gzip") })
        ("Accept-Encoding") = some ("gzip")
    ∧ buildUpstreamHeaders samplePositiveChannel
        { authorization := some ("Bearer caller-secret"), acceptEncoding := some ("gzip") }
        = buildUpstreamHeaders samplePositiveChannel
            { authorization := none, acceptEncoding := some ("gzip") } :=
  ⟨(buildUpstreamHeaders_contract samplePositiveChannel
      { authorization := some ("Bearer caller-secret"), acceptEncoding := some ("gzip") }).1,
   (buildUpstreamHeaders_contract samplePositiveChannel
      { authorization := some ("Bearer caller-secret"), acceptEncoding := some ("gzip") }).2.1
     (Or.inl rfl),
   (buildUpstreamHeaders_contract samplePositiveChannel
      { authorization := some ("Bearer caller-secret"), acceptEncoding := some ("gzip") }).2.2.2.2.1,
   (buildUpstreamHeaders_contract samplePositiveChannel
      { authorization := none, acceptEncoding := some ("gzip") }).2.2.2.2.2
     (some ("Bearer caller-secret"))⟩
